import Mathlib

/-!
Verification of the Express request pipeline assembled in `src/app.js`.

The file shallowly embeds the middleware pipeline: an HTTP request is a
record, middleware stages are functions from a request and the response
headers accumulated so far to an `Outcome` (continue, respond, or forward
an error), and the application is the ordered stack of stages registered
in `src/app.js`, run left to right with the unknown-route and error
terminals at the end, exactly as Express runs `app.use` registrations.

External collaborators (static file serving, health check, the auth,
mailer and payments route modules, the GraphQL executor and the GraphiQL
UI) are parameters of the pipeline; repository modules that are required
by `src/app.js` but whose sources are not in the repository snapshot
(`local-error-handler`, `middleware/verify-jwt`) are modelled from the
spec, as flagged in their doc comments.
-/

namespace OldApi

/-- A JSON value, enough to state the exact wire bodies the pipeline emits. -/
inductive Jx where
  | str (s : String)
  | num (n : Nat)
  | obj (fields : List (String × Jx))
  | arr (items : List Jx)
deriving Repr

/-- An incoming HTTP request as seen by this layer: method, full URL
(path plus query string, as in Express `req.url` for handlers mounted
without a path), the `Origin` header, the bearer credential from the
`Authorization` header, and the user identity attached by the
token-verification gate (absent until that gate runs). -/
structure Request where
  method : String
  url : String
  origin : Option String
  token : Option String
  user : Option String
deriving Repr

/-- The path portion of the request URL (the part before any `?`),
which is what Express matches mount prefixes against. -/
def Request.path (r : Request) : String :=
  ⟨r.url.data.takeWhile (fun c => c ≠ '?')⟩

/-- An outgoing HTTP response: status code, headers, optional JSON body. -/
structure HttpResponse where
  status : Nat
  headers : List (String × String)
  body : Option Jx
deriving Repr

/-- One entry of an `AppError.errors` list, with the fields `src/app.js`
puts in the unknown-route error and the wire envelope carries. -/
structure SubError where
  statusCode : String
  message : String
  code : String
  meta : Jx
deriving Repr

/-- The uniform internal error representation (`AppError`) built by
`src/app.js` and consumed by the error formatter. -/
structure AppError where
  name : String
  message : String
  statusCode : String
  errors : List SubError
deriving Repr

/-- The JSON object for one sub-error, field order as in `src/app.js`. -/
def SubError.toJx (e : SubError) : Jx :=
  Jx.obj [("statusCode", Jx.str e.statusCode), ("message", Jx.str e.message),
          ("code", Jx.str e.code), ("meta", e.meta)]

/-- Result of formatting an error: the message, the numeric HTTP status
used for `res.status`, and the JSON value used for the `errors` key. -/
structure FormattedError where
  message : String
  statusCode : Nat
  jsonResponse : Jx
deriving Repr

/-- Read a decimal number from a list of characters, accumulator style;
`none` when a non-digit appears. -/
def natOfDigits : List Char → Nat → Option Nat
  | [], acc => some acc
  | c :: cs, acc =>
    if c.isDigit then natOfDigits cs (acc * 10 + (c.toNat - 48)) else none

/-- Parse a string of decimal digits into a number. -/
def strToNat (s : String) : Option Nat :=
  if s.data.isEmpty then none else natOfDigits s.data 0

/-- Modelled from the spec: the `local-error-handler` module (the
`formatError` function required by `src/app.js`) is not in the repository
snapshot. Per the spec it normalizes an error into the AppError envelope:
the wire body is `{ errors: [ { statusCode, message, code, meta } ] }`
and the HTTP status mirrors the dominant error's status code. -/
def formatError (e : AppError) : FormattedError :=
  { message := e.message
  , statusCode := (strToNat e.statusCode).getD 500
  , jsonResponse := Jx.arr (e.errors.map SubError.toJx) }

/-- Outcome of one middleware stage: pass control on (possibly with a
modified request and response headers), respond, or forward an error to
the terminal error handler (Express `next(err)`). -/
inductive Outcome where
  | next (req : Request) (hs : List (String × String))
  | done (resp : HttpResponse)
  | error (e : AppError)
deriving Repr

/-- A middleware stage. -/
def Mw : Type := Request → List (String × String) → Outcome

/-- Express mount-prefix matching on character lists: a path matches a
mount prefix when it equals the prefix or continues it at a `/`. -/
def mountMatchesL (pre path : List Char) : Bool :=
  path == pre || (pre ++ ['/']).isPrefixOf path

/-- Express mount-prefix matching on strings. -/
def mountMatches (pre path : String) : Bool :=
  mountMatchesL pre.data path.data

/-- `app.use(pre, inner)`: run `inner` when the path matches the mount
prefix, otherwise fall through to the next stage. -/
def mount (pre : String) (inner : Mw) : Mw := fun req hs =>
  if mountMatches pre req.path then inner req hs else Outcome.next req hs

/-- Prepend the response headers accumulated by earlier stages to a
handler's response (the Express `res` object already carries them). -/
def withHdrs (hs : List (String × String)) (r : HttpResponse) : HttpResponse :=
  { r with headers := hs ++ r.headers }

/-- A terminal handler given by an external collaborator. -/
def handlerMw (f : Request → HttpResponse) : Mw := fun req hs =>
  Outcome.done (withHdrs hs (f req))

/-- A stage that only observes the request (passport initialization, the
request logger, cookie parsing, body parsing on well-formed input):
it passes request and headers through unchanged. -/
def passThrough : Mw := fun req hs => Outcome.next req hs

/-- The fixed security headers attached by the three `helmet` uses in
`src/app.js`: framing denial from `helmet()`'s defaults, the
`same-origin` referrer policy, and the configured content-security
policy. -/
def helmetHeaders (csp : String) : List (String × String) :=
  [("X-Frame-Options", "SAMEORIGIN"),
   ("Referrer-Policy", "same-origin"),
   ("Content-Security-Policy", csp)]

/-- Modelled from the spec: the `helmet` middleware package is not in the
repository snapshot; per the spec the security-header stage attaches its
fixed headers unconditionally, touches nothing else, and never fails.
The configured CSP is the one `src/app.js` passes from `config`. -/
def helmetMw (csp : String) : Mw := fun req hs =>
  Outcome.next req (hs ++ helmetHeaders csp)

/-- The `Access-Control-Allow-Origin` headers the CORS stage adds for a
request: only a request from the single allowed origin receives one. -/
def corsExtra (allowed : String) (req : Request) : List (String × String) :=
  match req.origin with
  | some o => if o == allowed then [("Access-Control-Allow-Origin", o)] else []
  | none => []

/-- Modelled from the spec: the `cors` middleware package is not in the
repository snapshot; per the spec it allows only the single configured
origin and answers preflight `OPTIONS` requests with the configured
success status and no body. `src/app.js` configures
`origin: 'http://localhost:8080'` and `optionsSuccessStatus: 200`. -/
def corsMw (allowed : String) (optionsStatus : Nat) : Mw := fun req hs =>
  let hs' := hs ++ corsExtra allowed req
  if req.method == "OPTIONS" then Outcome.done ⟨optionsStatus, hs', none⟩
  else Outcome.next req hs'

/-- The response the token-verification gate answers with when the bearer
credential is absent or invalid (an authentication failure). -/
def authFailureResponse (hs : List (String × String)) : HttpResponse :=
  ⟨401, hs, some (Jx.obj [("errors", Jx.arr [Jx.obj
    [("statusCode", Jx.str "401"), ("message", Jx.str "Authentication failed"),
     ("code", Jx.str "UNAUTHORIZED"), ("meta", Jx.obj [])]])])⟩

/-- Modelled from the spec: `middleware/verify-jwt` is not in the
repository snapshot; per the spec the gate inspects the request for a
bearer credential, short-circuits with an authentication-failure response
when it is absent or invalid, and otherwise attaches the decoded identity
to the request and continues. `verify` is the token decoder, so
`req.token.bind verify` is the decoded identity: `none` exactly when the
credential is absent or does not decode. -/
def verifyJwt (verify : String → Option String) (inner : Mw) : Mw := fun req hs =>
  match req.token.bind verify with
  | none => Outcome.done (authFailureResponse hs)
  | some ident => inner { req with user := some ident } hs

/-- The context object `src/app.js` builds for GraphQL execution:
the raw request and the user identity attached to it. -/
structure GraphQLContext where
  req : Request
  user : Option String
deriving Repr

/-- The `graphqlExpress(req => ({ schema, context: { req, user: req.user } }))`
stage: invoke the executor with the provided schema and the per-request
context. -/
def graphqlMw (schema : String) (executor : String → GraphQLContext → HttpResponse) : Mw :=
  fun req hs => Outcome.done (withHdrs hs (executor schema { req := req, user := req.user }))

/-- The external collaborators of `src/app.js`: static file serving, the
health check, the three delegated route modules, the GraphQL schema and
executor, the GraphiQL UI (as a function of its `endpointURL`), and the
token decoder used by the verification gate. -/
structure Handlers where
  staticFiles : Request → HttpResponse
  healthCheck : Request → HttpResponse
  authRoutes : Request → HttpResponse
  mailerRoutes : Request → HttpResponse
  paymentRoutes : Request → HttpResponse
  graphqlSchema : String
  executor : String → GraphQLContext → HttpResponse
  graphiql : String → Request → HttpResponse
  verify : String → Option String

/-- The configuration values `src/app.js` reads. -/
structure Config where
  contentSecurityPolicy : String
  serverDocs : Bool
  serverPort : Nat

/-- The AppError synthesized by the unknown-route handler in
`src/app.js`, embedding the unmatched `req.url` in `meta.route`. -/
def appError404 (req : Request) : AppError :=
  { name := "AppError"
  , message := "Unknown route requested"
  , statusCode := "404"
  , errors := [{ statusCode := "404"
               , message := "Unknown route requested"
               , code := "UNKNOWN_ROUTE"
               , meta := Jx.obj [("route", Jx.str req.url)] }] }

/-- The response both terminals emit for a formatted error:
status from the formatted error, body `{ errors: err.jsonResponse }`. -/
def envelopeResponse (err : FormattedError) (hs : List (String × String)) : HttpResponse :=
  ⟨err.statusCode, hs, some (Jx.obj [("errors", err.jsonResponse)])⟩

/-- The unknown-route (404) terminal of `src/app.js`. -/
def unknownRouteTerminal (req : Request) (hs : List (String × String)) : HttpResponse :=
  envelopeResponse (formatError (appError404 req)) hs

/-- The error-middleware terminal of `src/app.js`. -/
def errorTerminal (e : AppError) (hs : List (String × String)) : HttpResponse :=
  envelopeResponse (formatError e) hs

/-- Run a middleware stack on a request, with the unknown-route terminal
at the bottom and errors forwarded to the error terminal, as Express does
for the two trailing `app.use` registrations of `src/app.js`. -/
def runStack : List Mw → Request → List (String × String) → HttpResponse
  | [], req, hs => unknownRouteTerminal req hs
  | m :: ms, req, hs =>
    match m req hs with
    | Outcome.next r h => runStack ms r h
    | Outcome.done resp => resp
    | Outcome.error e => errorTerminal e hs

/-- The allowed CORS origin configured in `src/app.js`. -/
def allowedOrigin : String := "http://localhost:8080"

/-- The middleware stack of `src/app.js`, in registration order. -/
def appStack (cfg : Config) (h : Handlers) : List Mw :=
  [ helmetMw cfg.contentSecurityPolicy
  , mount "/public" (handlerMw h.staticFiles)
  , mount "/health-check" (handlerMw h.healthCheck)
  , passThrough  -- passport.initialize()
  , passThrough  -- requestLogger()
  , passThrough  -- cookieParser()
  , passThrough  -- bodyParser.urlencoded / bodyParser.json on well-formed input
  , corsMw allowedOrigin 200
  , mount "/api/auth" (handlerMw h.authRoutes)
  , mount "/api/mailer" (handlerMw h.mailerRoutes)
  , mount "/api/payments" (verifyJwt h.verify (handlerMw h.paymentRoutes))
  , mount "/api/graphql" (verifyJwt h.verify (graphqlMw h.graphqlSchema h.executor)) ]
  ++ (if cfg.serverDocs
      then [mount "/api/docs" (handlerMw (h.graphiql "/api/graphql"))]
      else [])

/-- The whole application: run the stack from an empty header set. -/
def app (cfg : Config) (h : Handlers) (req : Request) : HttpResponse :=
  runStack (appStack cfg h) req []

/-- The mount prefixes registered in `src/app.js`, in registration order;
`/api/docs` is present exactly when the docs flag is enabled. -/
def registeredPrefixes (cfg : Config) : List String :=
  ["/public", "/health-check", "/api/auth", "/api/mailer",
   "/api/payments", "/api/graphql"]
  ++ (if cfg.serverDocs then ["/api/docs"] else [])

/-- The exact unknown-route wire body for an unmatched URL. -/
def unknownRouteBody (url : String) : Jx :=
  Jx.obj [("errors", Jx.arr [Jx.obj
    [("statusCode", Jx.str "404"), ("message", Jx.str "Unknown route requested"),
     ("code", Jx.str "UNKNOWN_ROUTE"), ("meta", Jx.obj [("route", Jx.str url)])]])]

/-- Whether the bearer credential of a request is present and decodes. -/
def tokenValid (verify : String → Option String) (token : Option String) : Bool :=
  (token.bind verify).isSome

/-- The response of a token-gated route handler: an authentication
failure when the credential is absent or invalid, otherwise the handler's
response on the request with the decoded identity attached. -/
def gated (verify : String → Option String) (f : Request → HttpResponse)
    (req : Request) (hs : List (String × String)) : HttpResponse :=
  match req.token.bind verify with
  | none => authFailureResponse hs
  | some ident => withHdrs hs (f { req with user := some ident })

/-- The response of `src/app.js` as a first-match dispatch over the
registered mount prefixes (proved equal to `app` for non-preflight
requests in `app_dispatch`). -/
def dispatch (cfg : Config) (h : Handlers) (req : Request) : HttpResponse :=
  let hs0 := helmetHeaders cfg.contentSecurityPolicy
  let hs1 := hs0 ++ corsExtra allowedOrigin req
  if mountMatches "/public" req.path then withHdrs hs0 (h.staticFiles req)
  else if mountMatches "/health-check" req.path then withHdrs hs0 (h.healthCheck req)
  else if mountMatches "/api/auth" req.path then withHdrs hs1 (h.authRoutes req)
  else if mountMatches "/api/mailer" req.path then withHdrs hs1 (h.mailerRoutes req)
  else if mountMatches "/api/payments" req.path then gated h.verify h.paymentRoutes req hs1
  else if mountMatches "/api/graphql" req.path then
    gated h.verify (fun r => h.executor h.graphqlSchema { req := r, user := r.user }) req hs1
  else if cfg.serverDocs && mountMatches "/api/docs" req.path then
    withHdrs hs1 (h.graphiql "/api/graphql" req)
  else unknownRouteTerminal req hs1

/-- The response of the sub-pipeline mounted at a given registered
prefix: the route handler's response (with the headers accumulated by
the stages before it), behind the token gate for payments and GraphQL. -/
def routeResponse (cfg : Config) (h : Handlers) (p : String) (req : Request) : HttpResponse :=
  let hs0 := helmetHeaders cfg.contentSecurityPolicy
  let hs1 := hs0 ++ corsExtra allowedOrigin req
  if p = "/public" then withHdrs hs0 (h.staticFiles req)
  else if p = "/health-check" then withHdrs hs0 (h.healthCheck req)
  else if p = "/api/auth" then withHdrs hs1 (h.authRoutes req)
  else if p = "/api/mailer" then withHdrs hs1 (h.mailerRoutes req)
  else if p = "/api/payments" then gated h.verify h.paymentRoutes req hs1
  else if p = "/api/graphql" then
    gated h.verify (fun r => h.executor h.graphqlSchema { req := r, user := r.user }) req hs1
  else withHdrs hs1 (h.graphiql "/api/graphql" req)

/-- A concrete instantiation of the external collaborators, used to
evaluate the pipeline on concrete requests. -/
def demoHandlers : Handlers :=
  { staticFiles := fun _ => ⟨200, [], none⟩
  , healthCheck := fun _ => ⟨200, [], some (Jx.obj [("uptime", Jx.num 1)])⟩
  , authRoutes := fun _ => ⟨201, [], none⟩
  , mailerRoutes := fun _ => ⟨202, [], none⟩
  , paymentRoutes := fun r => ⟨203, [], some (Jx.str (r.user.getD "anonymous"))⟩
  , graphqlSchema := "demo-schema"
  , executor := fun s c =>
      ⟨200, [], some (Jx.obj [("schema", Jx.str s), ("user", Jx.str (c.user.getD ""))])⟩
  , graphiql := fun endpointURL _ => ⟨200, [], some (Jx.str endpointURL)⟩
  , verify := fun t => if t == "good-token" then some "user-1" else none }

/-- A concrete configuration with the docs flag disabled. -/
def demoConfig : Config := ⟨"default-src self", false, 3000⟩

/-- A concrete configuration with the docs flag enabled. -/
def demoConfigDocs : Config := ⟨"default-src self", true, 3000⟩

/-! ### Mount-prefix matching lemmas -/

lemma mountMatchesL_eq_true {pre path : List Char} :
    mountMatchesL pre path = true ↔ path = pre ∨ (pre ++ ['/']) <+: path := by
  simp [mountMatchesL, List.isPrefixOf_iff_prefix]

/-- Two mount prefixes that match the same path are comparable: if
neither mount-matches the other, they cannot both match. -/
lemma mountMatchesL_unique {p q path : List Char}
    (hp : mountMatchesL p path = true) (hq : mountMatchesL q path = true)
    (hpq : mountMatchesL p q = false) (hqp : mountMatchesL q p = false) : False := by
  have hpq' : ¬(q = p ∨ (p ++ ['/']) <+: q) := by
    intro h
    rw [mountMatchesL_eq_true.mpr h] at hpq
    exact Bool.noConfusion hpq
  have hqp' : ¬(p = q ∨ (q ++ ['/']) <+: p) := by
    intro h
    rw [mountMatchesL_eq_true.mpr h] at hqp
    exact Bool.noConfusion hqp
  rw [mountMatchesL_eq_true] at hp hq
  rcases hp with hp | hp <;> rcases hq with hq | hq
  · exact hpq' (Or.inl (hq.symm.trans hp))
  · exact hqp' (Or.inr (hp ▸ hq))
  · exact hpq' (Or.inr (hq ▸ hp))
  · rcases List.prefix_or_prefix_of_prefix hp hq with h | h
    · by_cases hl : (p ++ ['/']).length ≤ q.length
      · exact hpq' (Or.inr ( List.prefix_of_prefix_length_le h ( List.prefix_append q ['/']) hl))
      · have h1 : (p ++ ['/']).length = (q ++ ['/']).length := by
          have h2 := h.length_le
          simp only [List.length_append, List.length_cons, List.length_nil] at h2 hl ⊢
          omega
        exact hpq' (Or.inl (List.append_cancel_right (h.eq_of_length h1)).symm)
    · by_cases hl : (q ++ ['/']).length ≤ p.length
      · exact hqp' (Or.inr ( List.prefix_of_prefix_length_le h ( List.prefix_append p ['/']) hl))
      · have h1 : (q ++ ['/']).length = (p ++ ['/']).length := by
          have h2 := h.length_le
          simp only [List.length_append, List.length_cons, List.length_nil] at h2 hl ⊢
          omega
        exact hqp' (Or.inl (List.append_cancel_right (h.eq_of_length h1)).symm)

/-- A path that matches mount prefix `p` cannot match an incomparable
mount prefix `q`. -/
lemma mountMatches_excl {p q path : String}
    (hp : mountMatches p path = true)
    (hpq : mountMatchesL p.data q.data = false)
    (hqp : mountMatchesL q.data p.data = false) :
    mountMatches q path = false := by
  cases hq : mountMatches q path
  · rfl
  · exact (mountMatchesL_unique hp hq hpq hqp).elim

/-! ### Pipeline stepping lemmas -/

lemma runStack_cons (m : Mw) (ms : List Mw) (req : Request) (hs : List (String × String)) :
    runStack (m :: ms) req hs =
      match m req hs with
      | Outcome.next r h => runStack ms r h
      | Outcome.done resp => resp
      | Outcome.error e => errorTerminal e hs := rfl

lemma runStack_next {m : Mw} {req : Request} {hs : List (String × String)}
    {r : Request} {h' : List (String × String)} (ms : List Mw)
    (hstep : m req hs = Outcome.next r h') :
    runStack (m :: ms) req hs = runStack ms r h' := by
  rw [runStack_cons, hstep]

lemma runStack_done {m : Mw} {req : Request} {hs : List (String × String)}
    {resp : HttpResponse} (ms : List Mw) (hstep : m req hs = Outcome.done resp) :
    runStack (m :: ms) req hs = resp := by
  rw [runStack_cons, hstep]

lemma mount_skip {pre : String} {req : Request} {hs : List (String × String)} (inner : Mw)
    (hm : mountMatches pre req.path = false) :
    mount pre inner req hs = Outcome.next req hs := by
  simp [mount, hm]

lemma mount_hit {pre : String} {req : Request} {hs : List (String × String)} (inner : Mw)
    (hm : mountMatches pre req.path = true) :
    mount pre inner req hs = inner req hs := by
  simp [mount, hm]

lemma corsMw_next {allowed : String} {st : Nat} {req : Request} {hs : List (String × String)}
    (hm : req.method ≠ "OPTIONS") :
    corsMw allowed st req hs = Outcome.next req (hs ++ corsExtra allowed req) := by
  simp [corsMw, hm]

lemma verifyJwt_handlerMw (verify : String → Option String) (f : Request → HttpResponse)
    (req : Request) (hs : List (String × String)) :
    verifyJwt verify (handlerMw f) req hs = Outcome.done (gated verify f req hs) := by
  unfold verifyJwt gated
  cases req.token.bind verify <;> rfl

lemma verifyJwt_graphqlMw (verify : String → Option String) (schema : String)
    (ex : String → GraphQLContext → HttpResponse) (req : Request) (hs : List (String × String)) :
    verifyJwt verify (graphqlMw schema ex) req hs =
      Outcome.done (gated verify (fun r => ex schema { req := r, user := r.user }) req hs) := by
  unfold verifyJwt gated graphqlMw
  cases req.token.bind verify <;> rfl

/-- For every non-preflight request, the application's response is the
first-match dispatch over the registered mount prefixes. -/
lemma app_dispatch (cfg : Config) (h : Handlers) (req : Request)
    (hm : req.method ≠ "OPTIONS") :
    app cfg h req = dispatch cfg h req := by
  unfold app appStack dispatch
  by_cases h1 : mountMatches "/public" req.path
  · simp [runStack, helmetMw, mount, handlerMw, h1]
  by_cases h2 : mountMatches "/health-check" req.path
  · simp [runStack, helmetMw, mount, handlerMw, h1, h2]
  by_cases h3 : mountMatches "/api/auth" req.path
  · simp [runStack, helmetMw, mount, handlerMw, passThrough, corsMw, h1, h2, h3, hm]
  by_cases h4 : mountMatches "/api/mailer" req.path
  · simp [runStack, helmetMw, mount, handlerMw, passThrough, corsMw, h1, h2, h3, h4, hm]
  by_cases h5 : mountMatches "/api/payments" req.path
  · simp [runStack, helmetMw, mount, handlerMw, passThrough, corsMw, verifyJwt_handlerMw,
      h1, h2, h3, h4, h5, hm]
  by_cases h6 : mountMatches "/api/graphql" req.path
  · simp [runStack, helmetMw, mount, handlerMw, passThrough, corsMw, verifyJwt_handlerMw,
      verifyJwt_graphqlMw, h1, h2, h3, h4, h5, h6, hm]
  cases hd : cfg.serverDocs
  · simp [runStack, helmetMw, mount, handlerMw, passThrough, corsMw,
      h1, h2, h3, h4, h5, h6, hm, hd]
  · by_cases h7 : mountMatches "/api/docs" req.path
    · simp [runStack, helmetMw, mount, handlerMw, passThrough, corsMw,
        h1, h2, h3, h4, h5, h6, h7, hm, hd]
    · simp [runStack, helmetMw, mount, handlerMw, passThrough, corsMw,
        h1, h2, h3, h4, h5, h6, h7, hm, hd]

/-! ### Route-level consequences -/

lemma mem_registered {cfg : Config} {p : String} (hp : p ∈ registeredPrefixes cfg) :
    p = "/public" ∨ p = "/health-check" ∨ p = "/api/auth" ∨ p = "/api/mailer" ∨
      p = "/api/payments" ∨ p = "/api/graphql" ∨ p = "/api/docs" := by
  rw [registeredPrefixes] at hp
  rcases List.mem_append.mp hp with h | h
  · simp only [List.mem_cons, List.not_mem_nil, or_false] at h
    tauto
  · cases hd : cfg.serverDocs <;> rw [hd] at h
    · simp at h
    · simp at h
      tauto

lemma docs_mem_iff {cfg : Config} (h : "/api/docs" ∈ registeredPrefixes cfg) :
    cfg.serverDocs = true := by
  cases hd : cfg.serverDocs
  · rw [registeredPrefixes, hd] at h
    simp at h
  · rfl

/-- At most one registered mount prefix matches any given path. -/
lemma registered_unique {cfg : Config} {req : Request} {p q : String}
    (hp : p ∈ registeredPrefixes cfg) (hq : q ∈ registeredPrefixes cfg)
    (hmp : mountMatches p req.path = true) (hmq : mountMatches q req.path = true) :
    q = p := by
  rcases mem_registered hp with rfl | rfl | rfl | rfl | rfl | rfl | rfl <;>
    rcases mem_registered hq with rfl | rfl | rfl | rfl | rfl | rfl | rfl <;>
      first
        | rfl
        | exact (mountMatchesL_unique hmp hmq (by decide) (by decide)).elim

/-- A non-preflight request whose path matches a registered prefix is
answered by that prefix's sub-pipeline. -/
lemma app_routeResponse (cfg : Config) (h : Handlers) (req : Request)
    (hm : req.method ≠ "OPTIONS") {p : String}
    (hp : p ∈ registeredPrefixes cfg) (hmatch : mountMatches p req.path = true) :
    app cfg h req = routeResponse cfg h p req := by
  rw [app_dispatch cfg h req hm]
  rcases mem_registered hp with rfl | rfl | rfl | rfl | rfl | rfl | rfl
  · unfold dispatch routeResponse
    rw [hmatch]
    rfl
  · have h1 : mountMatches "/public" req.path = false :=
      mountMatches_excl hmatch (by decide) (by decide)
    unfold dispatch routeResponse
    rw [h1, hmatch]
    rfl
  · have h1 : mountMatches "/public" req.path = false :=
      mountMatches_excl hmatch (by decide) (by decide)
    have h2 : mountMatches "/health-check" req.path = false :=
      mountMatches_excl hmatch (by decide) (by decide)
    unfold dispatch routeResponse
    rw [h1, h2, hmatch]
    rfl
  · have h1 : mountMatches "/public" req.path = false :=
      mountMatches_excl hmatch (by decide) (by decide)
    have h2 : mountMatches "/health-check" req.path = false :=
      mountMatches_excl hmatch (by decide) (by decide)
    have h3 : mountMatches "/api/auth" req.path = false :=
      mountMatches_excl hmatch (by decide) (by decide)
    unfold dispatch routeResponse
    rw [h1, h2, h3, hmatch]
    rfl
  · have h1 : mountMatches "/public" req.path = false :=
      mountMatches_excl hmatch (by decide) (by decide)
    have h2 : mountMatches "/health-check" req.path = false :=
      mountMatches_excl hmatch (by decide) (by decide)
    have h3 : mountMatches "/api/auth" req.path = false :=
      mountMatches_excl hmatch (by decide) (by decide)
    have h4 : mountMatches "/api/mailer" req.path = false :=
      mountMatches_excl hmatch (by decide) (by decide)
    unfold dispatch routeResponse
    rw [h1, h2, h3, h4, hmatch]
    rfl
  · have h1 : mountMatches "/public" req.path = false :=
      mountMatches_excl hmatch (by decide) (by decide)
    have h2 : mountMatches "/health-check" req.path = false :=
      mountMatches_excl hmatch (by decide) (by decide)
    have h3 : mountMatches "/api/auth" req.path = false :=
      mountMatches_excl hmatch (by decide) (by decide)
    have h4 : mountMatches "/api/mailer" req.path = false :=
      mountMatches_excl hmatch (by decide) (by decide)
    have h5 : mountMatches "/api/payments" req.path = false :=
      mountMatches_excl hmatch (by decide) (by decide)
    unfold dispatch routeResponse
    rw [h1, h2, h3, h4, h5, hmatch]
    rfl
  · have h1 : mountMatches "/public" req.path = false :=
      mountMatches_excl hmatch (by decide) (by decide)
    have h2 : mountMatches "/health-check" req.path = false :=
      mountMatches_excl hmatch (by decide) (by decide)
    have h3 : mountMatches "/api/auth" req.path = false :=
      mountMatches_excl hmatch (by decide) (by decide)
    have h4 : mountMatches "/api/mailer" req.path = false :=
      mountMatches_excl hmatch (by decide) (by decide)
    have h5 : mountMatches "/api/payments" req.path = false :=
      mountMatches_excl hmatch (by decide) (by decide)
    have h6 : mountMatches "/api/graphql" req.path = false :=
      mountMatches_excl hmatch (by decide) (by decide)
    have hd : cfg.serverDocs = true := docs_mem_iff hp
    unfold dispatch routeResponse
    rw [h1, h2, h3, h4, h5, h6, hd, hmatch]
    rfl

lemma app_auth_route (cfg : Config) (h : Handlers) (req : Request)
    (hm : req.method ≠ "OPTIONS") (ha : mountMatches "/api/auth" req.path = true) :
    app cfg h req =
      withHdrs (helmetHeaders cfg.contentSecurityPolicy ++ corsExtra allowedOrigin req)
        (h.authRoutes req) := by
  rw [app_routeResponse cfg h req hm (by simp [registeredPrefixes]) ha]
  rfl

lemma app_mailer_route (cfg : Config) (h : Handlers) (req : Request)
    (hm : req.method ≠ "OPTIONS") (ha : mountMatches "/api/mailer" req.path = true) :
    app cfg h req =
      withHdrs (helmetHeaders cfg.contentSecurityPolicy ++ corsExtra allowedOrigin req)
        (h.mailerRoutes req) := by
  rw [app_routeResponse cfg h req hm (by simp [registeredPrefixes]) ha]
  rfl

lemma app_payments_route (cfg : Config) (h : Handlers) (req : Request)
    (hm : req.method ≠ "OPTIONS") (ha : mountMatches "/api/payments" req.path = true) :
    app cfg h req =
      gated h.verify h.paymentRoutes req
        (helmetHeaders cfg.contentSecurityPolicy ++ corsExtra allowedOrigin req) := by
  rw [app_routeResponse cfg h req hm (by simp [registeredPrefixes]) ha]
  rfl

lemma app_graphql_route (cfg : Config) (h : Handlers) (req : Request)
    (hm : req.method ≠ "OPTIONS") (ha : mountMatches "/api/graphql" req.path = true) :
    app cfg h req =
      gated h.verify (fun r => h.executor h.graphqlSchema { req := r, user := r.user }) req
        (helmetHeaders cfg.contentSecurityPolicy ++ corsExtra allowedOrigin req) := by
  rw [app_routeResponse cfg h req hm (by simp [registeredPrefixes]) ha]
  rfl

lemma gated_invalid {verify : String → Option String} {f : Request → HttpResponse}
    {req : Request} {hs : List (String × String)} (hb : req.token.bind verify = none) :
    gated verify f req hs = authFailureResponse hs := by
  unfold gated
  rw [hb]

lemma gated_valid {verify : String → Option String} {f : Request → HttpResponse}
    {req : Request} {hs : List (String × String)} {ident : String}
    (hb : req.token.bind verify = some ident) :
    gated verify f req hs = withHdrs hs (f { req with user := some ident }) := by
  unfold gated
  rw [hb]

lemma bind_none_of_not_tokenValid {verify : String → Option String} {tok : Option String}
    (hv : tokenValid verify tok = false) : tok.bind verify = none := by
  unfold tokenValid at hv
  cases hb : tok.bind verify
  · rfl
  · rw [hb] at hv
    exact Bool.noConfusion hv


/-! ### Claims -/

/-- C1: For every non-preflight request whose path matches no registered
route, the pipeline responds with HTTP status 404 and exactly the JSON
body `{errors:[{statusCode:"404",message:"Unknown route requested",
code:"UNKNOWN_ROUTE",meta:{route:<unmatched url>}}]}`, the unmatched
`req.url` embedded in `meta.route`. -/
theorem unmatched_route_404 (cfg : Config) (h : Handlers) (req : Request)
    (hm : req.method ≠ "OPTIONS")
    (hnone : ∀ p ∈ registeredPrefixes cfg, mountMatches p req.path = false) :
    app cfg h req =
      ⟨404, helmetHeaders cfg.contentSecurityPolicy ++ corsExtra allowedOrigin req,
        some (unknownRouteBody req.url)⟩ := by
  have h1 : mountMatches "/public" req.path = false := hnone _ (by simp [registeredPrefixes])
  have h2 : mountMatches "/health-check" req.path = false := hnone _ (by simp [registeredPrefixes])
  have h3 : mountMatches "/api/auth" req.path = false := hnone _ (by simp [registeredPrefixes])
  have h4 : mountMatches "/api/mailer" req.path = false := hnone _ (by simp [registeredPrefixes])
  have h5 : mountMatches "/api/payments" req.path = false := hnone _ (by simp [registeredPrefixes])
  have h6 : mountMatches "/api/graphql" req.path = false := hnone _ (by simp [registeredPrefixes])
  rw [app_dispatch cfg h req hm]
  cases hd : cfg.serverDocs
  · unfold dispatch
    rw [h1, h2, h3, h4, h5, h6, hd]
    rfl
  · have h7 : mountMatches "/api/docs" req.path = false :=
      hnone _ (by simp [registeredPrefixes, hd])
    unfold dispatch
    rw [h1, h2, h3, h4, h5, h6, hd, h7]
    rfl

/-- Witness for C1: `GET /does-not-exist` yields 404 with the exact
claimed body. -/
theorem unmatched_route_404_witness :
    app demoConfig demoHandlers ⟨"GET", "/does-not-exist", none, none, none⟩ =
      ⟨404, helmetHeaders "default-src self", some (unknownRouteBody "/does-not-exist")⟩ :=
  unmatched_route_404 demoConfig demoHandlers ⟨"GET", "/does-not-exist", none, none, none⟩
    (by decide) (by decide)

/-- C2: a request to the protected prefixes `/api/payments` or
`/api/graphql` without a valid bearer token is short-circuited with the
authentication-failure response, and the response is the same for any
downstream handlers (no downstream handler effect); with a valid token
the decoded identity is attached to the request and processing continues
to the payments handler resp. the GraphQL executor. -/
theorem token_gate_short_circuit (cfg : Config) (h h' : Handlers) (req : Request)
    (hm : req.method ≠ "OPTIONS")
    (hpath : mountMatches "/api/payments" req.path = true ∨
      mountMatches "/api/graphql" req.path = true) :
    (tokenValid h.verify req.token = false →
      app cfg h req =
        authFailureResponse
          (helmetHeaders cfg.contentSecurityPolicy ++ corsExtra allowedOrigin req)
      ∧ (h'.verify = h.verify → app cfg h' req = app cfg h req))
    ∧ (∀ ident, req.token.bind h.verify = some ident →
        (mountMatches "/api/payments" req.path = true →
          app cfg h req =
            withHdrs (helmetHeaders cfg.contentSecurityPolicy ++ corsExtra allowedOrigin req)
              (h.paymentRoutes { req with user := some ident }))
        ∧ (mountMatches "/api/graphql" req.path = true →
          app cfg h req =
            withHdrs (helmetHeaders cfg.contentSecurityPolicy ++ corsExtra allowedOrigin req)
              (h.executor h.graphqlSchema
                { req := { req with user := some ident }, user := some ident }))) := by
  rcases hpath with hp | hp
  · constructor
    · intro hv
      have hb := bind_none_of_not_tokenValid hv
      constructor
      · rw [app_payments_route cfg h req hm hp, gated_invalid hb]
      · intro hveq
        rw [app_payments_route cfg h req hm hp, app_payments_route cfg h' req hm hp, hveq,
          gated_invalid hb, gated_invalid hb]
    · intro ident hbind
      constructor
      · intro _
        rw [app_payments_route cfg h req hm hp, gated_valid hbind]
      · intro hg
        have h6 : mountMatches "/api/graphql" req.path = false :=
          mountMatches_excl hp (by decide) (by decide)
        rw [h6] at hg
        exact Bool.noConfusion hg
  · constructor
    · intro hv
      have hb := bind_none_of_not_tokenValid hv
      constructor
      · rw [app_graphql_route cfg h req hm hp, gated_invalid hb]
      · intro hveq
        rw [app_graphql_route cfg h req hm hp, app_graphql_route cfg h' req hm hp, hveq,
          gated_invalid hb, gated_invalid hb]
    · intro ident hbind
      constructor
      · intro hp2
        have h5 : mountMatches "/api/payments" req.path = false :=
          mountMatches_excl hp (by decide) (by decide)
        rw [h5] at hp2
        exact Bool.noConfusion hp2
      · intro _
        rw [app_graphql_route cfg h req hm hp, gated_valid hbind]

/-- Witness for C2: `GET /api/payments/history` without a token is
answered by the authentication-failure response. -/
theorem token_gate_short_circuit_witness :
    app demoConfig demoHandlers ⟨"GET", "/api/payments/history", none, none, none⟩ =
      authFailureResponse (helmetHeaders "default-src self") :=
  ((token_gate_short_circuit demoConfig demoHandlers demoHandlers
      ⟨"GET", "/api/payments/history", none, none, none⟩ (by decide)
      (Or.inl (by decide))).1 rfl).1

/-- C3: for a non-preflight request whose path matches a registered
mount prefix, that prefix is the unique (hence longest) registered match
and the pipeline answers with that prefix's sub-pipeline, so the
catch-all 404 terminal never shadows a registered route. -/
theorem routing_longest_prefix_dispatch (cfg : Config) (h : Handlers) (req : Request)
    (hm : req.method ≠ "OPTIONS") (p : String)
    (hp : p ∈ registeredPrefixes cfg) (hmatch : mountMatches p req.path = true) :
    (∀ q ∈ registeredPrefixes cfg, mountMatches q req.path = true → q = p)
    ∧ app cfg h req = routeResponse cfg h p req :=
  ⟨fun _ hq hmq => registered_unique hp hq hmatch hmq,
   app_routeResponse cfg h req hm hp hmatch⟩

/-- Witness for C3: `/api/auth/login` matches only `/api/auth`, and the
pipeline answers with the auth sub-pipeline's response. -/
theorem routing_longest_prefix_dispatch_witness :
    (∀ q ∈ registeredPrefixes demoConfig,
      mountMatches q (Request.path ⟨"POST", "/api/auth/login", none, none, none⟩) = true →
        q = "/api/auth")
    ∧ app demoConfig demoHandlers ⟨"POST", "/api/auth/login", none, none, none⟩ =
        routeResponse demoConfig demoHandlers "/api/auth"
          ⟨"POST", "/api/auth/login", none, none, none⟩ :=
  routing_longest_prefix_dispatch demoConfig demoHandlers
    ⟨"POST", "/api/auth/login", none, none, none⟩ (by decide) "/api/auth"
    (by simp [registeredPrefixes]) (by decide)

/-- C4: both terminal handlers normalize their error through the shared
`formatError` and emit a response of the same shape
`{ errors: [ { statusCode, message, code, meta } ] }` with the HTTP
status taken from the formatted error; a stage that forwards an error is
answered by the error terminal's response (nothing re-throws: the run is
a total function into responses). -/
theorem terminals_shared_envelope :
    (∀ (req : Request) (hs : List (String × String)),
      unknownRouteTerminal req hs =
        ⟨(formatError (appError404 req)).statusCode, hs,
          some (Jx.obj [("errors", (formatError (appError404 req)).jsonResponse)])⟩)
    ∧ (∀ (e : AppError) (hs : List (String × String)),
      errorTerminal e hs =
        ⟨(formatError e).statusCode, hs,
          some (Jx.obj [("errors", (formatError e).jsonResponse)])⟩)
    ∧ (∀ (m : Mw) (ms : List Mw) (req : Request) (hs : List (String × String)) (e : AppError),
      m req hs = Outcome.error e →
      runStack (m :: ms) req hs = errorTerminal e hs) := by
  refine ⟨fun req hs => rfl, fun e hs => rfl, fun m ms req hs e he => ?_⟩
  rw [runStack_cons, he]

/-- Witness for C4: a stage that forwards a concrete error is answered by
the error terminal on that error. -/
theorem terminals_shared_envelope_witness :
    runStack [fun _ _ => Outcome.error (appError404 ⟨"GET", "/x", none, none, none⟩)]
        ⟨"GET", "/x", none, none, none⟩ [] =
      errorTerminal (appError404 ⟨"GET", "/x", none, none, none⟩) [] :=
  terminals_shared_envelope.2.2 _ [] ⟨"GET", "/x", none, none, none⟩ [] _ rfl

/-- C5: the CORS stage adds no `Access-Control-Allow-Origin` header for
an origin other than the single allowed one, adds it for the allowed
origin, and answers preflight `OPTIONS` requests with the fixed success
status 200 and no body. -/
theorem cors_single_origin_preflight (cfg : Config) (h : Handlers) (req : Request) (o : String) :
    (req.origin = some o → o ≠ allowedOrigin → corsExtra allowedOrigin req = [])
    ∧ (req.origin = some allowedOrigin →
      corsExtra allowedOrigin req = [("Access-Control-Allow-Origin", allowedOrigin)])
    ∧ (req.method = "OPTIONS" →
      mountMatches "/public" req.path = false →
      mountMatches "/health-check" req.path = false →
      app cfg h req =
        ⟨200, helmetHeaders cfg.contentSecurityPolicy ++ corsExtra allowedOrigin req, none⟩) := by
  refine ⟨fun ho hne => ?_, fun ho => ?_, fun hm h1 h2 => ?_⟩
  · unfold corsExtra
    rw [ho]
    simp [hne]
  · unfold corsExtra
    rw [ho]
    simp
  · unfold app appStack
    simp [runStack, helmetMw, mount, handlerMw, passThrough, corsMw, h1, h2, hm]

/-- Witness for C5: an `OPTIONS /api/graphql` preflight from a
non-allowed origin gets status 200, no body, and no
`Access-Control-Allow-Origin` header. -/
theorem cors_single_origin_preflight_witness :
    corsExtra allowedOrigin ⟨"OPTIONS", "/api/graphql", some "http://evil.example", none, none⟩ = []
    ∧ app demoConfig demoHandlers
        ⟨"OPTIONS", "/api/graphql", some "http://evil.example", none, none⟩ =
      ⟨200, helmetHeaders "default-src self", none⟩ :=
  ⟨(cors_single_origin_preflight demoConfig demoHandlers
      ⟨"OPTIONS", "/api/graphql", some "http://evil.example", none, none⟩
      "http://evil.example").1 rfl (by decide),
   (cors_single_origin_preflight demoConfig demoHandlers
      ⟨"OPTIONS", "/api/graphql", some "http://evil.example", none, none⟩
      "http://evil.example").2.2 rfl (by decide) (by decide)⟩

/-- C6: a non-preflight request under `/api/graphql` that passes the
token gate is answered by the GraphQL executor applied to the provided
schema and the context `{ req, user }`, where `req` is the request with
the decoded identity attached and `user` is that identity. -/
theorem graphql_context_construction (cfg : Config) (h : Handlers) (req : Request)
    (ident : String) (hm : req.method ≠ "OPTIONS")
    (hmatch : mountMatches "/api/graphql" req.path = true)
    (hv : req.token.bind h.verify = some ident) :
    app cfg h req =
      withHdrs (helmetHeaders cfg.contentSecurityPolicy ++ corsExtra allowedOrigin req)
        (h.executor h.graphqlSchema
          { req := { req with user := some ident }, user := some ident }) := by
  rw [app_graphql_route cfg h req hm hmatch, gated_valid hv]

/-- Witness for C6: `POST /api/graphql` with a valid token reaches the
executor with the demo schema and the decoded identity in the context. -/
theorem graphql_context_construction_witness :
    app demoConfig demoHandlers ⟨"POST", "/api/graphql", none, some "good-token", none⟩ =
      withHdrs (helmetHeaders "default-src self")
        (demoHandlers.executor demoHandlers.graphqlSchema
          { req := ⟨"POST", "/api/graphql", none, some "good-token", some "user-1"⟩
          , user := some "user-1" }) :=
  graphql_context_construction demoConfig demoHandlers
    ⟨"POST", "/api/graphql", none, some "good-token", none⟩ "user-1" (by decide) (by decide) rfl

/-- C7: the security-header stage is the first stage of the pipeline and,
for every request, passes control on with the request unchanged and the
fixed security headers appended — unconditionally, with no other effect
and no failure or short-circuit. -/
theorem security_headers_stage (cfg : Config) (h : Handlers) :
    (appStack cfg h).head? = some (helmetMw cfg.contentSecurityPolicy)
    ∧ ∀ (req : Request) (hs : List (String × String)),
      helmetMw cfg.contentSecurityPolicy req hs =
        Outcome.next req (hs ++ helmetHeaders cfg.contentSecurityPolicy) :=
  ⟨rfl, fun _ _ => rfl⟩

/-- C8: with the docs flag enabled, a request under `/api/docs` is
answered by the GraphiQL UI pointed at `/api/graphql`; with the flag
disabled, the same request falls through to the unknown-route 404
terminal. -/
theorem docs_flag_mount (cfg : Config) (h : Handlers) (req : Request)
    (hm : req.method ≠ "OPTIONS") (hmatch : mountMatches "/api/docs" req.path = true) :
    (cfg.serverDocs = true →
      app cfg h req =
        withHdrs (helmetHeaders cfg.contentSecurityPolicy ++ corsExtra allowedOrigin req)
          (h.graphiql "/api/graphql" req))
    ∧ (cfg.serverDocs = false →
      app cfg h req =
        ⟨404, helmetHeaders cfg.contentSecurityPolicy ++ corsExtra allowedOrigin req,
          some (unknownRouteBody req.url)⟩) := by
  have h1 : mountMatches "/public" req.path = false :=
    mountMatches_excl hmatch (by decide) (by decide)
  have h2 : mountMatches "/health-check" req.path = false :=
    mountMatches_excl hmatch (by decide) (by decide)
  have h3 : mountMatches "/api/auth" req.path = false :=
    mountMatches_excl hmatch (by decide) (by decide)
  have h4 : mountMatches "/api/mailer" req.path = false :=
    mountMatches_excl hmatch (by decide) (by decide)
  have h5 : mountMatches "/api/payments" req.path = false :=
    mountMatches_excl hmatch (by decide) (by decide)
  have h6 : mountMatches "/api/graphql" req.path = false :=
    mountMatches_excl hmatch (by decide) (by decide)
  constructor
  · intro hd
    rw [app_dispatch cfg h req hm]
    unfold dispatch
    rw [h1, h2, h3, h4, h5, h6, hd, hmatch]
    rfl
  · intro hd
    rw [app_dispatch cfg h req hm]
    unfold dispatch
    rw [h1, h2, h3, h4, h5, h6, hd]
    rfl

/-- Witness for C8: `GET /api/docs` is served by GraphiQL when the flag
is on and 404s when it is off. -/
theorem docs_flag_mount_witness :
    app demoConfigDocs demoHandlers ⟨"GET", "/api/docs", none, none, none⟩ =
      withHdrs (helmetHeaders "default-src self")
        (demoHandlers.graphiql "/api/graphql" ⟨"GET", "/api/docs", none, none, none⟩)
    ∧ app demoConfig demoHandlers ⟨"GET", "/api/docs", none, none, none⟩ =
      ⟨404, helmetHeaders "default-src self", some (unknownRouteBody "/api/docs")⟩ :=
  ⟨(docs_flag_mount demoConfigDocs demoHandlers ⟨"GET", "/api/docs", none, none, none⟩
      (by decide) (by decide)).1 rfl,
   (docs_flag_mount demoConfig demoHandlers ⟨"GET", "/api/docs", none, none, none⟩
      (by decide) (by decide)).2 rfl⟩

/-- C9: non-preflight requests under `/api/auth` and `/api/mailer` are
answered directly by their delegated route handlers, for every request —
in particular with no bearer credential present — without the
token-verification gate. -/
theorem auth_mailer_ungated (cfg : Config) (h : Handlers) (req : Request)
    (hm : req.method ≠ "OPTIONS") :
    (mountMatches "/api/auth" req.path = true →
      app cfg h req =
        withHdrs (helmetHeaders cfg.contentSecurityPolicy ++ corsExtra allowedOrigin req)
          (h.authRoutes req))
    ∧ (mountMatches "/api/mailer" req.path = true →
      app cfg h req =
        withHdrs (helmetHeaders cfg.contentSecurityPolicy ++ corsExtra allowedOrigin req)
          (h.mailerRoutes req)) :=
  ⟨fun ha => app_auth_route cfg h req hm ha, fun ha => app_mailer_route cfg h req hm ha⟩

/-- Witness for C9: token-less requests to `/api/auth/login` and
`/api/mailer/send` reach their route handlers. -/
theorem auth_mailer_ungated_witness :
    app demoConfig demoHandlers ⟨"POST", "/api/auth/login", none, none, none⟩ =
      withHdrs (helmetHeaders "default-src self")
        (demoHandlers.authRoutes ⟨"POST", "/api/auth/login", none, none, none⟩)
    ∧ app demoConfig demoHandlers ⟨"POST", "/api/mailer/send", none, none, none⟩ =
      withHdrs (helmetHeaders "default-src self")
        (demoHandlers.mailerRoutes ⟨"POST", "/api/mailer/send", none, none, none⟩) :=
  ⟨(auth_mailer_ungated demoConfig demoHandlers ⟨"POST", "/api/auth/login", none, none, none⟩
      (by decide)).1 (by decide),
   (auth_mailer_ungated demoConfig demoHandlers ⟨"POST", "/api/mailer/send", none, none, none⟩
      (by decide)).2 (by decide)⟩

/-- C10: the unknown-route envelope's `meta.route` is the request's full
`req.url` including any query string, not only the path: for
`GET /x?y=1` the embedded route is `"/x?y=1"` while the path used for
route matching is `"/x"`. -/
theorem unknown_route_meta_full_url :
    (∀ (req : Request) (hs : List (String × String)),
      unknownRouteTerminal req hs = ⟨404, hs, some (unknownRouteBody req.url)⟩)
    ∧ unknownRouteTerminal ⟨"GET", "/x?y=1", none, none, none⟩ [] =
        ⟨404, [], some (unknownRouteBody "/x?y=1")⟩
    ∧ Request.path ⟨"GET", "/x?y=1", none, none, none⟩ = "/x" :=
  ⟨fun _ _ => rfl, rfl, rfl⟩

end OldApi
